import Mathlib

/-
Verification of the wazuh metrics API layer.

The repository source under scrutiny is the handler glue
(src/engine/source/api/src/metrics/handlers.cpp), which dispatches wire
requests to a Metrics Manager core.  The handlers are embedded directly
from that file.  The Metrics Manager core itself (Registry, Scope,
Instrument, enable controller, snapshot builder, self test) is not part
of the provided sources, so it is modelled from the specification.
-/

/-- Error kinds of the core, from spec section 7. -/
inductive ErrKind
  | invalidArgument
  | notFound
  | kindConflict
  | selfTestFailure
deriving DecidableEq, Repr

/-- A core error: a kind together with a message. -/
structure Error where
  kind : ErrKind
  message : String
deriving DecidableEq, Repr

/-- Instrument kinds, from spec section 3 (tagged variant of counter, gauge, histogram). -/
inductive Kind
  | counter
  | gauge
  | histogram
deriving DecidableEq, Repr

/-- Kind-specific accumulator payload of an instrument, from spec section 3:
counters hold an integer, gauges hold the last set value, histograms hold
bucketed counts plus sum and count. -/
inductive ValueState
  | counter (v : Int)
  | gauge (v : Int)
  | histogram (buckets : List Nat) (sum : Int) (count : Nat)
deriving DecidableEq, Repr

/-- An instrument: kind, enabled flag and accumulator, from spec section 3. -/
structure Instrument where
  kind : Kind
  enabled : Bool
  value : ValueState
deriving DecidableEq, Repr

/-- A scope: a mapping from instrument name to instrument, kept as an
association list in insertion order (spec section 3 and 4.1 ask for a
deterministic order). -/
structure Scope where
  instruments : List (String × Instrument)
deriving DecidableEq, Repr

/-- The registry: a mapping from scope name to scope, association list in
insertion order, from spec section 3. -/
structure Registry where
  scopes : List (String × Scope)
deriving DecidableEq, Repr

/-- Lookup in an association list: first entry with the given key. -/
def lookupA {α : Type} (xs : List (String × α)) (k : String) : Option α :=
  match xs with
  | [] => none
  | (k₁, v) :: rest => if k₁ = k then some v else lookupA rest k

/-- Append a new binding at the end (insertion order). -/
def insertA {α : Type} (xs : List (String × α)) (k : String) (v : α) : List (String × α) :=
  xs ++ [(k, v)]

/-- Replace the value of the first binding with the given key. -/
def updateA {α : Type} (xs : List (String × α)) (k : String) (v : α) : List (String × α) :=
  match xs with
  | [] => []
  | (k₁, v₁) :: rest => if k₁ = k then (k, v) :: rest else (k₁, v₁) :: updateA rest k v

theorem lookupA_insertA_self {α : Type} (xs : List (String × α)) (k : String) (v : α)
    (h : lookupA xs k = none) : lookupA (insertA xs k v) k = some v := by
  induction xs with
  | nil => simp [lookupA, insertA]
  | cons hd tl ih =>
    obtain ⟨k₁, v₁⟩ := hd
    by_cases hk : k₁ = k
    · simp [lookupA, hk] at h
    · simp only [lookupA, hk, if_false] at h
      simpa [insertA, lookupA, hk] using ih h

theorem lookupA_updateA_self {α : Type} (xs : List (String × α)) (k : String) (v w : α)
    (h : lookupA xs k = some w) : lookupA (updateA xs k v) k = some v := by
  induction xs with
  | nil => simp [lookupA] at h
  | cons hd tl ih =>
    obtain ⟨k₁, v₁⟩ := hd
    by_cases hk : k₁ = k
    · simp [updateA, hk, lookupA]
    · simp only [lookupA, hk, if_false] at h
      simp only [updateA, hk, if_false, lookupA]
      exact ih h

theorem updateA_self {α : Type} (xs : List (String × α)) (k : String) (w : α)
    (h : lookupA xs k = some w) : updateA xs k w = xs := by
  induction xs with
  | nil => simp [lookupA] at h
  | cons hd tl ih =>
    obtain ⟨k₁, v₁⟩ := hd
    by_cases hk : k₁ = k
    · simp only [lookupA, hk, if_true, Option.some.injEq] at h
      simp [updateA, hk, h]
    · simp only [lookupA, hk, if_false] at h
      simp [updateA, hk, ih h]

/- ## Core operations, modelled from the spec -/

/-- Modelled from the spec: initial accumulator for each instrument kind
(the Metrics Manager core is absent from the sources). -/
def initValue : Kind → ValueState
  | .counter => .counter 0
  | .gauge => .gauge 0
  | .histogram => .histogram [] 0 0

/-- Modelled from the spec, section 4.1: return the scope if present,
otherwise create and insert an empty one; an empty name is rejected with
InvalidArgument. -/
def Registry.getOrCreateScope (r : Registry) (name : String) :
    Except Error (Registry × Scope) :=
  if name = "" then .error ⟨.invalidArgument, "invalid scope name"⟩
  else
    match lookupA r.scopes name with
    | some sc => .ok (r, sc)
    | none => .ok (⟨insertA r.scopes name ⟨[]⟩⟩, ⟨[]⟩)

/-- Modelled from the spec, section 4.2: same-name lookups must agree on
kind; a mismatch on an existing instrument fails with KindConflict; a new
instrument starts enabled with the initial accumulator for its kind. -/
def Scope.getOrCreateInstrument (sc : Scope) (name : String) (k : Kind) :
    Except Error (Scope × Instrument) :=
  match lookupA sc.instruments name with
  | some inst =>
    if inst.kind = k then .ok (sc, inst)
    else .error ⟨.kindConflict, "instrument kind conflict"⟩
  | none =>
    let inst : Instrument := ⟨k, true, initValue k⟩
    .ok (⟨insertA sc.instruments name inst⟩, inst)

/-- Modelled from the spec: resolve or create the scope, then the
instrument inside it, and write the possibly extended scope back. -/
def Registry.getOrCreateInstrument (r : Registry) (s i : String) (k : Kind) :
    Except Error (Registry × Instrument) :=
  match r.getOrCreateScope s with
  | .error e => .error e
  | .ok (r₁, sc) =>
    match sc.getOrCreateInstrument i k with
    | .error e => .error e
    | .ok (sc₁, inst) => .ok (⟨updateA r₁.scopes s sc₁⟩, inst)

/-- Modelled from the spec, section 3: how a measurement updates the
accumulator (counter adds, gauge holds last value, histogram accumulates
sum and count). -/
def recordValue : ValueState → Int → ValueState
  | .counter c, v => .counter (c + v)
  | .gauge _, v => .gauge v
  | .histogram b s c, v => .histogram b (s + v) (c + 1)

/-- Modelled from the spec, section 4.2: record applies the measurement
only if the instrument is enabled; otherwise the call is a silent no-op,
and a missing instrument is likewise a no-op rather than an error. -/
def Scope.record (sc : Scope) (name : String) (v : Int) : Scope :=
  match lookupA sc.instruments name with
  | some inst =>
    if inst.enabled then
      ⟨updateA sc.instruments name { inst with value := recordValue inst.value v }⟩
    else sc
  | none => sc

/-- Modelled from the spec: registry-level record, forwarding to the scope. -/
def Registry.record (r : Registry) (s i : String) (v : Int) : Registry :=
  match lookupA r.scopes s with
  | some sc => ⟨updateA r.scopes s (sc.record i v)⟩
  | none => r

/-- Modelled from the spec, section 4.2: toggling fails with NotFound if
the instrument does not exist; enabling resets no state, disabling
preserves the last value. -/
def Scope.setEnabled (sc : Scope) (name : String) (b : Bool) : Except Error Scope :=
  match lookupA sc.instruments name with
  | none => .error ⟨.notFound, "instrument not found"⟩
  | some inst => .ok ⟨updateA sc.instruments name { inst with enabled := b }⟩

/-- Modelled from the spec, section 4.3: the enable controller validates
both names are non-empty (distinct InvalidArgument messages), resolves the
scope (NotFound if it was never referenced, the recommended choice) and
forwards to the scope toggle. -/
def enable (r : Registry) (s i : String) (b : Bool) : Except Error Registry :=
  if s = "" then .error ⟨.invalidArgument, "missing scope name"⟩
  else if i = "" then .error ⟨.invalidArgument, "missing instrument name"⟩
  else
    match lookupA r.scopes s with
    | none => .error ⟨.notFound, "scope not found"⟩
    | some sc =>
      match sc.setEnabled i b with
      | .error e => .error e
      | .ok sc₁ => .ok ⟨updateA r.scopes s sc₁⟩

/-- The structured value produced by the snapshot builder (a JSON-like
tree), from spec section 4.4. -/
inductive SValue
  | null
  | bool (b : Bool)
  | num (n : Int)
  | str (s : String)
  | arr (items : List SValue)
  | obj (fields : List (String × SValue))

/-- Printable name of an instrument kind, used in the dump tree. -/
def kindName : Kind → String
  | .counter => "counter"
  | .gauge => "gauge"
  | .histogram => "histogram"

/-- Modelled from the spec, section 4.4: the value part of the dump entry
for one instrument. -/
def ValueState.toSValue : ValueState → SValue
  | .counter c => .num c
  | .gauge g => .num g
  | .histogram b s c =>
    .obj [("buckets", .arr (b.map fun n => SValue.num (Int.ofNat n))),
          ("sum", .num s),
          ("count", .num (Int.ofNat c))]

/-- Modelled from the spec, section 4.4: one instrument dumps to an object
with its enabled flag, kind and value. -/
def Instrument.toSValue (inst : Instrument) : SValue :=
  .obj [("enabled", .bool inst.enabled),
        ("kind", .str (kindName inst.kind)),
        ("value", inst.value.toSValue)]

/-- Modelled from the spec, section 4.4: a scope dumps to the object of its
instruments, in deterministic (insertion) order. -/
def Scope.toSValue (sc : Scope) : SValue :=
  .obj (sc.instruments.map fun p => (p.1, p.2.toSValue))

/-- Modelled from the spec, section 4.4: the snapshot builder walks all
scopes in deterministic order and never fails under normal operation. -/
def dump (r : Registry) : Except Error SValue :=
  .ok (.obj (r.scopes.map fun p => (p.1, Scope.toSValue p.2)))

/-- A fresh registry in which no scope or instrument has been created. -/
def Registry.empty : Registry := ⟨[]⟩

/-- Helper: the instrument stored under a scope name and instrument name. -/
def lookupInstrument (r : Registry) (s i : String) : Option Instrument :=
  match lookupA r.scopes s with
  | some sc => lookupA sc.instruments i
  | none => none

/-- Claim C4: dump never fails under normal operation; on a fresh Registry
with no scope or instrument created it returns an empty structured value
(an empty tree), not an error. -/
theorem dump_empty_registry_ok_empty : dump Registry.empty = .ok (.obj []) := rfl

/- ## Handler layer, embedded from handlers.cpp -/

/-- An error of the base layer carried by a variant result, as used by the
handlers (only the message is read by the handler code). -/
structure BaseError where
  message : String
deriving DecidableEq, Repr

/-- A wire response, modelled from the spec, section 6: the adapter maps an
Error to a generic failure response containing the error message text, and
success to a status-OK response optionally carrying the dump payload. -/
inductive WpResponse
  | failure (message : String)
  | success (value : Option SValue)

/-- The metrics manager API the handlers call into, with the result each
operation yields for the request at hand: dumpCmd returns an error or a
serialized string, enableCmd may fail (a thrown exception in the source,
caught by the enable handler), testCmd returns an error or nothing (its
signature is modelled from the spec, as the interface header is not among
the sources). -/
structure MetricsManagerAPI where
  dumpCmd : Except BaseError String
  enableCmd : String → String → Bool → Except BaseError Unit
  testCmd : Except BaseError Unit

/-- The dump request message has no fields. -/
structure DumpRequest

/-- The enable request message: optional scope name, instrument name and
status, mirroring the protobuf presence discipline tested by the handler. -/
structure EnableRequest where
  scopename : Option String
  instrumentname : Option String
  status : Option Bool

/-- The test request message has no fields. -/
structure TestRequest

/-- One invocation of a core operation, used to trace which operations a
handler actually performed. -/
inductive CoreCall
  | dump
  | enable (scope instr : String) (status : Bool)
  | test
deriving DecidableEq, Repr

/-- Outcome of running the dump handler: either a produced response, or the
variant access on the parse result failing (the thrown bad access in the
source, which escapes the handler instead of becoming a response). -/
inductive HandlerOutcome
  | response (r : WpResponse)
  | variantAccessFault

/-- Embedded from metricsDumpCmd in handlers.cpp: the deserialization
result comes in as a variant of an error response and a parsed request; on
an error from dumpCmd the error message is surfaced; otherwise the string
result is parsed (eMessageFromJson, abstracted as the parse argument) and
the value alternative is taken without inspecting the error alternative. -/
def metricsDumpCmd (api : MetricsManagerAPI) (parse : String → Except String SValue)
    (res : Sum WpResponse DumpRequest) : HandlerOutcome × List CoreCall :=
  match res with
  | .inl resp => (.response resp, [])
  | .inr _ =>
    match api.dumpCmd with
    | .error e => (.response (.failure e.message), [.dump])
    | .ok s =>
      match parse s with
      | .error _ => (.variantAccessFault, [.dump])
      | .ok v => (.response (.success (some v)), [.dump])

/-- Embedded from metricsEnableCmd in handlers.cpp: presence checks on the
three fields with their distinct messages, then the call to enableCmd with
a try-catch that renders a thrown message as a generic error response. -/
def metricsEnableCmd (api : MetricsManagerAPI)
    (res : Sum WpResponse EnableRequest) : WpResponse × List CoreCall :=
  match res with
  | .inl resp => (resp, [])
  | .inr req =>
    let errorMsg : Option String :=
      if req.scopename.isNone then some "Missing /scope name"
      else if req.instrumentname.isNone then some "Missing /instrument name"
      else if req.status.isNone then some "Missing /status"
      else none
    match errorMsg with
    | some m => (.failure m, [])
    | none =>
      let s := req.scopename.getD ""
      let i := req.instrumentname.getD ""
      let st := req.status.getD false
      match api.enableCmd s i st with
      | .error e => (.failure e.message, [.enable s i st])
      | .ok _ => (.success none, [.enable s i st])

/-- Embedded from metricsTestCmd in handlers.cpp: after the deserialization
check, testCmd is invoked and its result is discarded; the handler then
unconditionally builds a status-OK response. -/
def metricsTestCmd (api : MetricsManagerAPI)
    (res : Sum WpResponse TestRequest) : WpResponse × List CoreCall :=
  match res with
  | .inl resp => (resp, [])
  | .inr _ =>
    let _discarded := api.testCmd
    (.success none, [.test])

/-- A concrete manager whose self test fails with a diagnostic message. -/
def apiTestFails : MetricsManagerAPI where
  dumpCmd := .ok "ok"
  enableCmd := fun _ _ _ => .ok ()
  testCmd := .error ⟨"self test failed"⟩

/-- Claim C1: the claim states that when testCmd fails the test handler
returns a failure response carrying the error message; the code instead
discards the result of testCmd and returns a status-OK response, so the
error is swallowed.  At a manager whose testCmd yields an error, the
handler on a well-formed request still answers success. -/
theorem testCmd_error_ignored_by_handler :
    apiTestFails.testCmd = .error ⟨"self test failed"⟩ ∧
    metricsTestCmd apiTestFails (.inr ⟨⟩) = (.success none, [.test]) :=
  ⟨rfl, rfl⟩

/-- Claim C9: when deserialization fails (the adapter already produced an
error response), each of the three handlers returns that adapter response
unchanged and performs no core call at all, so registry state is untouched
by malformed requests. -/
theorem handlers_reject_malformed_without_core_call
    (api : MetricsManagerAPI) (parse : String → Except String SValue)
    (resp : WpResponse) :
    metricsDumpCmd api parse (.inl resp) = (.response resp, []) ∧
    metricsEnableCmd api (.inl resp) = (resp, []) ∧
    metricsTestCmd api (.inl resp) = (resp, []) :=
  ⟨rfl, rfl, rfl⟩

/-- Claim C3: whenever the core dumpCmd yields an error, the dump handler
answers a failure response whose message is exactly the error message. -/
theorem metricsDumpCmd_propagates_error_verbatim
    (api : MetricsManagerAPI) (parse : String → Except String SValue)
    (e : BaseError) (h : api.dumpCmd = .error e) :
    metricsDumpCmd api parse (.inr ⟨⟩) = (.response (.failure e.message), [.dump]) := by
  simp [metricsDumpCmd, h]

/-- A concrete manager whose dumpCmd fails, used to witness claim C3. -/
def apiDumpFails : MetricsManagerAPI where
  dumpCmd := .error ⟨"dump broke"⟩
  enableCmd := fun _ _ _ => .ok ()
  testCmd := .ok ()

/-- A parse function that accepts nothing, standing for a payload that is
not valid JSON. -/
def parseNone : String → Except String SValue := fun _ => .error "invalid json"

theorem metricsDumpCmd_propagates_error_verbatim_witness :
    apiDumpFails.dumpCmd = .error ⟨"dump broke"⟩ ∧
    metricsDumpCmd apiDumpFails parseNone (.inr ⟨⟩)
      = (.response (.failure "dump broke"), [.dump]) :=
  ⟨rfl, metricsDumpCmd_propagates_error_verbatim apiDumpFails parseNone ⟨"dump broke"⟩ rfl⟩

/-- Claim C10: when dumpCmd succeeds with a string, the dump handler takes
the value alternative of the parse result without inspecting the error
alternative: if the string parses, the handler answers a status-OK response
carrying the value, and if it does not parse (not valid JSON), the variant
access faults instead of producing an error response. -/
theorem metricsDumpCmd_requires_valid_json
    (api : MetricsManagerAPI) (parse : String → Except String SValue)
    (s : String) (h : api.dumpCmd = .ok s) :
    metricsDumpCmd api parse (.inr ⟨⟩) =
      (match parse s with
       | .error _ => (.variantAccessFault, [.dump])
       | .ok v => (.response (.success (some v)), [.dump])) := by
  simp only [metricsDumpCmd, h]

/-- A concrete manager whose dumpCmd succeeds with a non-JSON payload, used
to witness claim C10: the handler faults rather than answering. -/
def apiDumpNotJson : MetricsManagerAPI where
  dumpCmd := .ok "not json"
  enableCmd := fun _ _ _ => .ok ()
  testCmd := .ok ()

theorem metricsDumpCmd_requires_valid_json_witness :
    apiDumpNotJson.dumpCmd = .ok "not json" ∧
    metricsDumpCmd apiDumpNotJson parseNone (.inr ⟨⟩) = (.variantAccessFault, [.dump]) :=
  ⟨rfl, metricsDumpCmd_requires_valid_json apiDumpNotJson parseNone "not json" rfl⟩

/-- Claim C2: the enable operation rejects an empty scope name with an
InvalidArgument error mentioning the scope name, rejects an empty
instrument name with an InvalidArgument error mentioning the instrument
name, and the two messages are distinct; both rejections happen before any
lookup or toggle, and the error return leaves the registry unchanged. -/
theorem enable_empty_names_invalid_argument
    (r : Registry) (s i : String) (b : Bool) (hs : s ≠ "") :
    enable r "" i b = .error ⟨.invalidArgument, "missing scope name"⟩ ∧
    enable r s "" b = .error ⟨.invalidArgument, "missing instrument name"⟩ ∧
    ("missing scope name" : String) ≠ "missing instrument name" := by
  refine ⟨rfl, ?_, by decide⟩
  simp [enable, hs]

theorem enable_empty_names_invalid_argument_witness :
    ("s" : String) ≠ "" ∧
    (enable Registry.empty "" "x" true
        = .error ⟨.invalidArgument, "missing scope name"⟩ ∧
      enable Registry.empty "s" "" true
        = .error ⟨.invalidArgument, "missing instrument name"⟩ ∧
      ("missing scope name" : String) ≠ "missing instrument name") :=
  ⟨by decide, enable_empty_names_invalid_argument Registry.empty "s" "x" true (by decide)⟩

/-- Helper for idempotence: when the scope and the instrument already exist
with the requested kind, getOrCreateInstrument returns the registry
unchanged together with the stored instrument. -/
theorem getOrCreateInstrument_of_found (r : Registry) (s i : String) (k : Kind)
    (sc : Scope) (inst : Instrument)
    (hs : s ≠ "") (h1 : lookupA r.scopes s = some sc)
    (h2 : lookupA sc.instruments i = some inst) (h3 : inst.kind = k) :
    Registry.getOrCreateInstrument r s i k = .ok (r, inst) := by
  simp [Registry.getOrCreateInstrument, Registry.getOrCreateScope, hs, h1,
    Scope.getOrCreateInstrument, h2, h3, updateA_self r.scopes s sc h1]

/-- Claim C6: getOrCreateInstrument is idempotent; a second call with the
same (scope, instrument, kind) triple returns the registry unchanged and
the same underlying instrument, so instrument identity is stable. -/
theorem getOrCreateInstrument_idempotent (r r₁ : Registry) (s i : String) (k : Kind)
    (inst : Instrument)
    (h : Registry.getOrCreateInstrument r s i k = .ok (r₁, inst)) :
    Registry.getOrCreateInstrument r₁ s i k = .ok (r₁, inst) := by
  by_cases hs : s = ""
  · simp [Registry.getOrCreateInstrument, Registry.getOrCreateScope, hs] at h
  cases hsc : lookupA r.scopes s with
  | some sc =>
    cases hinst : lookupA sc.instruments i with
    | some inst₀ =>
      by_cases hk : inst₀.kind = k
      · have hr : r = r₁ ∧ inst₀ = inst := by
          simpa [Registry.getOrCreateInstrument, Registry.getOrCreateScope, hs, hsc,
            Scope.getOrCreateInstrument, hinst, hk, updateA_self r.scopes s sc hsc] using h
        rw [← hr.1, ← hr.2]
        exact getOrCreateInstrument_of_found r s i k sc inst₀ hs hsc hinst hk
      · simp [Registry.getOrCreateInstrument, Registry.getOrCreateScope, hs, hsc,
          Scope.getOrCreateInstrument, hinst, hk] at h
    | none =>
      have hr : (⟨updateA r.scopes s ⟨insertA sc.instruments i ⟨k, true, initValue k⟩⟩⟩ :
            Registry) = r₁ ∧ (⟨k, true, initValue k⟩ : Instrument) = inst := by
        simpa [Registry.getOrCreateInstrument, Registry.getOrCreateScope, hs, hsc,
          Scope.getOrCreateInstrument, hinst] using h
      refine getOrCreateInstrument_of_found r₁ s i k
        ⟨insertA sc.instruments i ⟨k, true, initValue k⟩⟩ inst hs ?_ ?_ ?_
      · rw [← hr.1]
        exact lookupA_updateA_self r.scopes s _ sc hsc
      · rw [← hr.2]
        exact lookupA_insertA_self sc.instruments i _ hinst
      · rw [← hr.2]
  | none =>
    have hsc₁ : lookupA (insertA r.scopes s ⟨[]⟩) s = some ⟨[]⟩ :=
      lookupA_insertA_self r.scopes s _ hsc
    have hr : (⟨updateA (insertA r.scopes s ⟨[]⟩) s
          ⟨insertA ([] : List (String × Instrument)) i ⟨k, true, initValue k⟩⟩⟩ :
          Registry) = r₁ ∧ (⟨k, true, initValue k⟩ : Instrument) = inst := by
      simpa [Registry.getOrCreateInstrument, Registry.getOrCreateScope, hs, hsc,
        Scope.getOrCreateInstrument, lookupA] using h
    refine getOrCreateInstrument_of_found r₁ s i k
      ⟨insertA ([] : List (String × Instrument)) i ⟨k, true, initValue k⟩⟩ inst hs ?_ ?_ ?_
    · rw [← hr.1]
      exact lookupA_updateA_self _ s _ _ hsc₁
    · rw [← hr.2]
      exact lookupA_insertA_self ([] : List (String × Instrument)) i _ rfl
    · rw [← hr.2]

/-- The instrument created by the witness runs below: a counter, enabled,
with the initial accumulator. -/
def instCounter : Instrument := ⟨.counter, true, initValue .counter⟩

/-- The scope holding that one counter. -/
def scCounter : Scope := ⟨[("i", instCounter)]⟩

/-- The registry holding that one scope. -/
def regCounter : Registry := ⟨[("s", scCounter)]⟩

theorem getOrCreateInstrument_idempotent_witness :
    Registry.getOrCreateInstrument Registry.empty "s" "i" .counter
      = .ok (regCounter, instCounter) ∧
    Registry.getOrCreateInstrument regCounter "s" "i" .counter
      = .ok (regCounter, instCounter) :=
  ⟨rfl, getOrCreateInstrument_idempotent Registry.empty regCounter "s" "i" .counter
    instCounter rfl⟩

/-- Claim C7: re-declaring an existing instrument under the same scope and
name with a different kind fails with KindConflict; the error return means
no registry is produced, so the existing instrument is not replaced or
altered. -/
theorem getOrCreateInstrument_kind_conflict (r : Registry) (s i : String) (k k₁ : Kind)
    (sc : Scope) (inst : Instrument)
    (hs : s ≠ "") (h1 : lookupA r.scopes s = some sc)
    (h2 : lookupA sc.instruments i = some inst) (hk : inst.kind = k) (hne : k₁ ≠ k) :
    Registry.getOrCreateInstrument r s i k₁
      = .error ⟨.kindConflict, "instrument kind conflict"⟩ := by
  have hx : inst.kind ≠ k₁ := by
    rw [hk]
    exact fun hx => hne hx.symm
  simp [Registry.getOrCreateInstrument, Registry.getOrCreateScope, hs, h1,
    Scope.getOrCreateInstrument, h2, hx]

theorem getOrCreateInstrument_kind_conflict_witness :
    (("s" : String) ≠ "" ∧ lookupA regCounter.scopes "s" = some scCounter ∧
      lookupA scCounter.instruments "i" = some instCounter ∧
      instCounter.kind = .counter ∧ Kind.gauge ≠ .counter) ∧
    Registry.getOrCreateInstrument regCounter "s" "i" .gauge
      = .error ⟨.kindConflict, "instrument kind conflict"⟩ :=
  ⟨⟨by decide, rfl, rfl, rfl, by decide⟩,
    getOrCreateInstrument_kind_conflict regCounter "s" "i" .counter .gauge scCounter
      instCounter (by decide) rfl rfl rfl (by decide)⟩

/-- Claim C5: recording into a disabled instrument is a silent no-op that
returns no error and leaves the accumulator untouched: the registry is
unchanged, so any subsequent dump sees the old value, and when the
instrument is later re-enabled the dropped recording is not applied — the
value observed after re-enabling is still the old one. -/
theorem record_disabled_noop (r r₂ : Registry) (s i : String) (v : Int)
    (inst : Instrument)
    (hfind : lookupInstrument r s i = some inst) (hdis : inst.enabled = false)
    (hen : enable (Registry.record r s i v) s i true = .ok r₂) :
    Registry.record r s i v = r ∧
    dump (Registry.record r s i v) = dump r ∧
    (lookupInstrument r₂ s i).map Instrument.value = some inst.value := by
  cases hsc : lookupA r.scopes s with
  | none => simp [lookupInstrument, hsc] at hfind
  | some sc =>
    have h2 : lookupA sc.instruments i = some inst := by
      simpa [lookupInstrument, hsc] using hfind
    have hrec : Scope.record sc i v = sc := by
      simp [Scope.record, h2, hdis]
    have hrr : Registry.record r s i v = r := by
      simp [Registry.record, hsc, hrec, updateA_self r.scopes s sc hsc]
    refine ⟨hrr, by rw [hrr], ?_⟩
    rw [hrr] at hen
    by_cases hs : s = ""
    · simp [enable, hs] at hen
    by_cases hi : i = ""
    · simp [enable, hs, hi] at hen
    have hr₂ : (⟨updateA r.scopes s
          ⟨updateA sc.instruments i { inst with enabled := true }⟩⟩ : Registry) = r₂ := by
      simpa [enable, hs, hi, hsc, Scope.setEnabled, h2] using hen
    rw [← hr₂]
    simp [lookupInstrument,
      lookupA_updateA_self r.scopes s _ sc hsc,
      lookupA_updateA_self sc.instruments i _ inst h2]

/-- A registry with one disabled counter holding value five, used to
witness claim C5. -/
def regDisabled : Registry := ⟨[("s", ⟨[("i", ⟨.counter, false, .counter 5⟩)]⟩)]⟩

/-- The same registry after re-enabling the instrument: the counter still
holds five. -/
def regReEnabled : Registry := ⟨[("s", ⟨[("i", ⟨.counter, true, .counter 5⟩)]⟩)]⟩

theorem record_disabled_noop_witness :
    (lookupInstrument regDisabled "s" "i" = some ⟨.counter, false, .counter 5⟩ ∧
      (⟨.counter, false, .counter 5⟩ : Instrument).enabled = false ∧
      enable (Registry.record regDisabled "s" "i" 3) "s" "i" true = .ok regReEnabled) ∧
    (Registry.record regDisabled "s" "i" 3 = regDisabled ∧
      dump (Registry.record regDisabled "s" "i" 3) = dump regDisabled ∧
      (lookupInstrument regReEnabled "s" "i").map Instrument.value
        = some (⟨.counter, false, .counter 5⟩ : Instrument).value) :=
  ⟨⟨rfl, rfl, rfl⟩,
    record_disabled_noop regDisabled regReEnabled "s" "i" 3
      ⟨.counter, false, .counter 5⟩ rfl rfl rfl⟩
